import Mathlib

/-!
Shallow embedding of the 360QuakeForCMD repository (two Python files,
`360QuakeForCMD.py` and `quake_query.py`, each defining a `QuakeQuery`
class) and proofs about its specified behaviour.

Modelling conventions:
* JSON field access `d[k]` on a possibly-absent key is an `Option`;
  a Python `KeyError` is `PyExc.keyError k`.
* The network is an oracle input `NetOutcome` (what `requests.post`
  returns or raises); `json.loads` is an oracle `decode` function.
* Machine output (console lines, rows added to a table, files written)
  is returned explicitly.
-/

/-- Python exceptions that can escape the functions under study:
`requests.RequestException` (including the `HTTPError` raised by
`raise_for_status`), `json.JSONDecodeError`, `KeyError`, and the
`OSError` family that `DataFrame.to_excel` raises when the file cannot
be created. -/
inductive PyExc where
  | requestException (msg : String)
  | jsonDecodeError (body : String)
  | keyError (k : String)
  | osError (msg : String)
deriving Repr, DecidableEq

/-- The `meta.pagination` block of an API response. -/
structure Pagination where
  page_index : Nat
  page_size : Nat
  total : Nat
deriving Repr, DecidableEq

/-- The `service.http` sub-structure of a data item (`host` field). -/
structure HttpInfo where
  host : String
deriving Repr, DecidableEq

/-- The `service` structure of a data item; `http = none` models the
absence of the `"http"` key. -/
structure Service where
  http : Option HttpInfo
deriving Repr, DecidableEq

/-- One element of the response's `data` array. -/
structure ResultItem where
  ip : String
  port : Nat
  service : Service
deriving Repr, DecidableEq

/-- A decoded API response; `data = none` models a JSON object without
a `"data"` key. -/
structure ApiResponse where
  pagination : Pagination
  data : Option (List ResultItem)
deriving Repr, DecidableEq

/-- One row of the display table / export sheet:
(序号, 地址, IP, 端口) = (index, host, ip, port). -/
abbrev Row := Nat × String × String × Nat

/-- Whether `"http" in item["service"]` holds. -/
def hasHttp (it : ResultItem) : Bool := it.service.http.isSome

/-- The host displayed for an item (defaults to `""` when the `http`
sub-structure is absent; only used under a `hasHttp` hypothesis). -/
def hostOf (it : ResultItem) : String :=
  match it.service.http with
  | some h => h.host
  | none => ""

/-- Rows `(i, item["service"]["http"]["host"], item["ip"], item["port"])` for
items counted from `i` upward, with no guard on the `"http"` key: the
first item lacking it raises `KeyError`.  This is the loop body of
`quake_query.py` `display_results` (`enumerate(..., start=1)`) and the
list comprehension of `360QuakeForCMD.py` `export_to_excel`
(`enumerate(...)` with `index + 1`). -/
def rowsFrom (i : Nat) : List ResultItem → Except PyExc (List Row)
  | [] => .ok []
  | it :: rest =>
    match it.service.http with
    | none => .error (.keyError "http")
    | some h => (rowsFrom (i + 1) rest).map (fun rs => (i, h.host, it.ip, it.port) :: rs)

/-- The guarded loop of `360QuakeForCMD.py` `display_results`
(`enumerate(..., start=1)`): an item with the `"http"` key contributes a
row, an item without it contributes a warning naming its 1-based
position (`警告：第{index}条...`), and the loop never fails. -/
def displayFrom (i : Nat) : List ResultItem → List Row × List Nat
  | [] => ([], [])
  | it :: rest =>
    let (rs, ws) := displayFrom (i + 1) rest
    match it.service.http with
    | some h => ((i, h.host, it.ip, it.port) :: rs, ws)
    | none => (rs, i :: ws)

/-- The two `print` lines emitted before the table by both variants of
`display_results`: the pagination summary and the query echo. -/
def summaryLines (r : ApiResponse) (query_term : String) : List String :=
  ["\n",
   "页码：第" ++ toString r.pagination.page_index ++ "页 共" ++
     toString r.pagination.page_size ++ "页 总数量：" ++
     toString r.pagination.total ++ "个",
   "查询内容：" ++ query_term]

/-- What a run of `display_results` prints: the summary lines, the table
rows, and the positions warned about. -/
structure DisplayOutput where
  summary : List String
  rows : List Row
  warnings : List Nat
deriving Repr, DecidableEq

namespace QuakeForCMD

/-- Embeds `360QuakeForCMD.py` `QuakeQuery.display_results`: prints the summary,
then walks `api_response["data"]` adding a row per item that has the
`"http"` sub-structure and a warning per item that lacks it, then prints
the table.  A missing `"data"` key raises `KeyError`. -/
def display_results (api_response : ApiResponse) (query_term : String) :
    Except PyExc DisplayOutput :=
  match api_response.data with
  | none => .error (.keyError "data")
  | some items =>
    let (rs, ws) := displayFrom 1 items
    .ok { summary := summaryLines api_response query_term, rows := rs, warnings := ws }

end QuakeForCMD

namespace QuakeQueryPy

/-- Embeds `quake_query.py` `QuakeQuery.display_results`: prints the summary,
then walks `api_response["data"]` adding one row per item with no guard
on the `"http"` key (a missing key raises `KeyError`), then prints the
table. -/
def display_results (api_response : ApiResponse) (query_term : String) :
    Except PyExc DisplayOutput :=
  match api_response.data with
  | none => .error (.keyError "data")
  | some items =>
    (rowsFrom 1 items).map (fun rs =>
      { summary := summaryLines api_response query_term, rows := rs, warnings := [] })

end QuakeQueryPy

/-- Character-level form of the three Python `str.replace` calls on
`query_term` (each pattern is a single character, so `.replace(" ", "_")`
maps every space to an underscore and `.replace(":", "")` /
`.replace(CHR34, "")` delete every colon / double quote). -/
def sanitizeChars (s : List Char) : List Char :=
  ((s.map fun c => if c = ' ' then '_' else c).filter
      (fun c => c ≠ ':')).filter (fun c => c ≠ '\"')

/-- Embeds `query_filename = query_term.replace(" ", "_").replace(":", "").replace(CHR34, "")`. -/
def query_filename (query_term : String) : String :=
  String.mk (sanitizeChars query_term.data)

/-- Embeds `file_name = f"quake_results_{query_filename}.xlsx"`. -/
def file_name (query_term : String) : String :=
  "quake_results_" ++ query_filename query_term ++ ".xlsx"

/-- The file system as seen by the program: the rows stored in each
spreadsheet file of the current directory, by file name. -/
def FS := String → Option (List Row)

namespace QuakeForCMD

/-- The rows computed by the list comprehension at the top of
`export_to_excel`: `enumerate(api_response["data"])` with `index + 1`,
unguarded access to `item["service"]["http"]["host"]`. -/
def export_rows (api_response : ApiResponse) : Except PyExc (List Row) :=
  match api_response.data with
  | none => .error (.keyError "data")
  | some items => rowsFrom 1 items

/-- Embeds `360QuakeForCMD.py` `QuakeQuery.export_to_excel`: builds the rows,
derives the file name from the query term, and writes the sheet (header
plus one row per computed record) to the current directory, overwriting
any existing file of that name.  `writeOk` is the oracle for whether the
file can be created; when it is `false`, `DataFrame.to_excel` raises an
`OSError` and nothing is written.  Returns the updated file system and
the outcome. -/
def export_to_excel (writeOk : Bool) (fs : FS) (api_response : ApiResponse)
    (query_term : String) : FS × Except PyExc Unit :=
  match export_rows api_response with
  | .error e => (fs, .error e)
  | .ok rows =>
    if writeOk then
      (fun n => if n = file_name query_term then some rows else fs n, .ok ())
    else
      (fs, .error (.osError "cannot create file"))

end QuakeForCMD

/-- What `requests.post` did: either it raised a
`requests.RequestException` (DNS failure, refused connection, timeout,
redirect loop, ...) with message `msg`, or it completed and the final
response has the given status code and body text. -/
inductive NetOutcome where
  | transportFail (msg : String)
  | response (status : Nat) (body : String)
deriving Repr, DecidableEq

/-- The fixed endpoint URL. -/
def quakeURL : String := "https://quake.360.cn/api/v3/search/quake_service"

/-- The JSON body sent by `perform_search`:
`{"query": query, "start": start_page, "size": str(result_count)}`. -/
structure Payload where
  query : String
  start : Nat
  size : String
deriving Repr, DecidableEq

/-- One HTTP request as issued by `requests.post`: the URL, the
`X-QuakeToken` header value (the api_key) and the JSON payload. -/
structure HttpRequest where
  url : String
  tokenHeader : String
  payload : Payload
deriving Repr, DecidableEq

/-- The message of the `requests.exceptions.HTTPError` raised by
`response.raise_for_status()` for a 4xx/5xx status: a deterministic
function of the status code and URL only. -/
def httpErrorMsg (status : Nat) : String :=
  toString status ++ " Error for url: " ++ quakeURL

/-- Everything a call to `perform_search` did: the requests issued (in
order), the console lines printed, and the returned value or escaped
exception. -/
structure SearchEffect where
  requests : List HttpRequest
  console : List String
  result : Except PyExc ApiResponse
deriving Repr

/-- Embeds `QuakeQuery.perform_search` (identical in both files): builds the
header and payload, issues one POST, calls `raise_for_status()` (which
raises `HTTPError` exactly when `400 ≤ status < 600`), then
`json.loads(response.text)` (decode failure raises
`json.JSONDecodeError`, which is not a `requests.RequestException` and
so escapes uncaught and unprinted).  A `requests.RequestException` is
printed (`API请求过程中发生错误: ...`) and re-raised unchanged.
`decode` is the oracle for `json.loads`. -/
def perform_search (api_key : String) (decode : String → Option ApiResponse)
    (net : NetOutcome) (query : String) (result_count : Nat) (start_page : Nat) :
    SearchEffect :=
  let req : HttpRequest :=
    { url := quakeURL,
      tokenHeader := api_key,
      payload := { query := query, start := start_page, size := toString result_count } }
  match net with
  | .transportFail msg =>
    { requests := [req],
      console := ["API请求过程中发生错误: " ++ msg],
      result := .error (.requestException msg) }
  | .response status body =>
    if 400 ≤ status ∧ status < 600 then
      { requests := [req],
        console := ["API请求过程中发生错误: " ++ httpErrorMsg status],
        result := .error (.requestException (httpErrorMsg status)) }
    else
      match decode body with
      | none => { requests := [req], console := [], result := .error (.jsonDecodeError body) }
      | some r => { requests := [req], console := [], result := .ok r }

/-- Everything a run of `360QuakeForCMD.py` `main` (with `--search`
given) did: console lines, the table printed by `display_results` (if
reached), the resulting file system, the name of the file written by
`export_to_excel` (if any), and the final outcome. -/
structure RunEffect where
  console : List String
  table : Option DisplayOutput
  fs : FS
  exportedName : Option String
  result : Except PyExc Unit

/-- Embeds `360QuakeForCMD.py` `QuakeQuery.main`, `--search` branch:
`perform_search`, then `display_results`, then `export_to_excel`, then
a final success message; any escaped exception aborts the run at that
point, skipping the remaining steps. -/
def run_main (api_key : String) (decode : String → Option ApiResponse)
    (net : NetOutcome) (query : String) (size : Nat) (page : Nat)
    (writeOk : Bool) (fs : FS) : RunEffect :=
  let se := perform_search api_key decode net query size page
  match se.result with
  | .error e =>
    { console := se.console, table := none, fs := fs,
      exportedName := none, result := .error e }
  | .ok r =>
    match QuakeForCMD.display_results r query with
    | .error e =>
      { console := se.console ++ summaryLines r query, table := none,
        fs := fs, exportedName := none, result := .error e }
    | .ok out =>
      let (fs2, exc) := QuakeForCMD.export_to_excel writeOk fs r query
      match exc with
      | .error e =>
        { console := se.console ++ out.summary, table := some out,
          fs := fs2, exportedName := none, result := .error e }
      | .ok _ =>
        { console := se.console ++ out.summary ++
            ["结果已成功导出至当前目录下的" ++ file_name query ++ "文件。",
             "结果已成功导出至当前目录下的" ++ file_name query ++ "文件。"],
          table := some out, fs := fs2,
          exportedName := some (file_name query), result := .ok () }

/-- Specification-side projection: the row list
`[(i, host_0, ip_0, port_0), (i+1, host_1, ip_1, port_1), ...]`, one row
per item in order, used to state what the table/sheet contains when every
item has the `http` sub-structure. -/
def projFrom (i : Nat) : List ResultItem → List Row
  | [] => []
  | it :: rest => (i, hostOf it, it.ip, it.port) :: projFrom (i + 1) rest

/-- Specification-side list of warning positions: the 1-based indices
(counted from `i`) of the items lacking the `http` sub-structure. -/
def warnFrom (i : Nat) : List ResultItem → List Nat
  | [] => []
  | it :: rest => if hasHttp it then warnFrom (i + 1) rest else i :: warnFrom (i + 1) rest

/-- Sample item exposing an HTTP service. -/
def itemA : ResultItem :=
  { ip := "1.2.3.4", port := 80, service := { http := some { host := "a.com" } } }

/-- Sample item without the `http` sub-structure. -/
def itemB : ResultItem :=
  { ip := "5.6.7.8", port := 443, service := { http := none } }

/-- Sample pagination block. -/
def pag0 : Pagination := { page_index := 1, page_size := 2, total := 2 }

/-- Sample response whose only item has the `http` sub-structure. -/
def respA : ApiResponse := { pagination := pag0, data := some [itemA] }

/-- Sample response with one item with and one item without `http`. -/
def respAB : ApiResponse := { pagination := pag0, data := some [itemA, itemB] }

/-- Sample response with an empty `data` array. -/
def respEmpty : ApiResponse := { pagination := pag0, data := some [] }

/-- Sample response with no `data` key at all. -/
def respNoData : ApiResponse := { pagination := pag0, data := none }

/-- The empty current directory. -/
def fs0 : FS := fun _ => none

/-- Sample `json.loads` oracle that decodes every body to `respA`. -/
def decodeA : String → Option ApiResponse := fun _ => some respA

/-- When every item has the `http` sub-structure, the unguarded row
computation succeeds and yields exactly the projection. -/
theorem rowsFrom_of_all_http : ∀ (items : List ResultItem) (i : Nat),
    (∀ it ∈ items, hasHttp it) → rowsFrom i items = .ok (projFrom i items) := by
  intro items
  induction items with
  | nil => intro i _; rfl
  | cons it rest ih =>
    intro i h
    have hit : hasHttp it := h it (List.mem_cons_self it rest)
    have hrest : ∀ x ∈ rest, hasHttp x := fun x hx => h x (List.mem_cons_of_mem it hx)
    cases hh : it.service.http with
    | none => rw [hasHttp, hh] at hit; simp at hit
    | some v =>
      simp only [rowsFrom, projFrom, hh, hostOf, ih (i + 1) hrest, Except.map]

/-- When every item has the `http` sub-structure, the guarded display
loop yields exactly the projection and no warnings. -/
theorem displayFrom_of_all_http : ∀ (items : List ResultItem) (i : Nat),
    (∀ it ∈ items, hasHttp it) → displayFrom i items = (projFrom i items, []) := by
  intro items
  induction items with
  | nil => intro i _; rfl
  | cons it rest ih =>
    intro i h
    have hit : hasHttp it := h it (List.mem_cons_self it rest)
    have hrest : ∀ x ∈ rest, hasHttp x := fun x hx => h x (List.mem_cons_of_mem it hx)
    cases hh : it.service.http with
    | none => rw [hasHttp, hh] at hit; simp at hit
    | some v =>
      simp only [displayFrom, projFrom, hh, hostOf, ih (i + 1) hrest]

/-- The projection has one row per item. -/
theorem projFrom_length : ∀ (items : List ResultItem) (i : Nat),
    (projFrom i items).length = items.length := by
  intro items
  induction items with
  | nil => intro i; rfl
  | cons it rest ih => intro i; simp only [projFrom, List.length_cons, ih (i + 1)]

/-- The k-th row of the projection started at `i` is the flattened
(i + k, host, ip, port) of the k-th item. -/
theorem projFrom_getElem : ∀ (items : List ResultItem) (i k : Nat) (it : ResultItem),
    items[k]? = some it →
    (projFrom i items)[k]? = some (i + k, hostOf it, it.ip, it.port) := by
  intro items
  induction items with
  | nil => intro i k it h; simp at h
  | cons x rest ih =>
    intro i k it h
    cases k with
    | zero =>
      rw [List.getElem?_cons_zero, Option.some_inj] at h
      subst h
      simp [projFrom]
    | succ k =>
      rw [List.getElem?_cons_succ] at h
      have hk : i + 1 + k = i + (k + 1) := by omega
      simp only [projFrom, List.getElem?_cons_succ, ih (i + 1) k it h, hk]

/-- C4: for every non-empty query, positive page size and non-negative
start page, `perform_search` issues exactly one POST request, to the
fixed URL, whose JSON body has `query` equal to the query argument,
`start` equal to the start page, and `size` the string form of the
numeric page size. -/
theorem perform_search_sends_one_request (api_key : String)
    (decode : String → Option ApiResponse) (net : NetOutcome) (query : String)
    (result_count start_page : Nat) (hq : query ≠ "") (hc : 0 < result_count) :
    (perform_search api_key decode net query result_count start_page).requests =
      [{ url := quakeURL, tokenHeader := api_key,
         payload := { query := query, start := start_page,
                      size := toString result_count } }] := by
  cases net with
  | transportFail msg => rfl
  | response status body =>
    simp only [perform_search]
    split
    · rfl
    · cases decode body <;> rfl

/-- Witness for C4 at a concrete input. -/
theorem perform_search_sends_one_request_witness :
    (perform_search "key" decodeA (NetOutcome.transportFail "refused") "q" 3 1).requests =
      [{ url := quakeURL, tokenHeader := "key",
         payload := { query := "q", start := 1, size := "3" } }] :=
  perform_search_sends_one_request "key" decodeA (NetOutcome.transportFail "refused")
    "q" 3 1 (by decide) (by decide)

/-- Every character surviving sanitization is neither a space, a colon,
nor a double quote. -/
theorem sanitizeChars_no_bad_char : ∀ (s : List Char), ∀ c ∈ sanitizeChars s,
    c ≠ ' ' ∧ c ≠ ':' ∧ c ≠ '\"' := by
  intro s c hc
  unfold sanitizeChars at hc
  simp only [List.mem_filter, List.mem_map, decide_eq_true_eq] at hc
  obtain ⟨⟨⟨a, _, ha⟩, h1⟩, h2⟩ := hc
  refine ⟨?_, h1, h2⟩
  subst ha
  by_cases hsp : a = ' '
  · rw [if_pos hsp]; decide
  · rw [if_neg hsp]; exact hsp

/-- C5: the derived export file name is the fixed prefix
`quake_results_`, then the query term with each space replaced by an
underscore and each colon and double quote removed, then `.xlsx`; hence
it contains no space, colon, or double-quote character. -/
theorem file_name_sanitized (q : String) :
    file_name q = "quake_results_" ++ String.mk (sanitizeChars q.data) ++ ".xlsx" ∧
    ∀ c ∈ (file_name q).data, c ≠ ' ' ∧ c ≠ ':' ∧ c ≠ '\"' := by
  refine ⟨rfl, ?_⟩
  intro c hc
  have hdata : (file_name q).data =
      "quake_results_".data ++ (sanitizeChars q.data ++ ".xlsx".data) := by
    simp [file_name, query_filename, String.data_append]
  rw [hdata] at hc
  rcases List.mem_append.mp hc with hc0 | hc1
  · have hpre : ∀ x ∈ "quake_results_".data, x ≠ ' ' ∧ x ≠ ':' ∧ x ≠ '\"' := by decide
    exact hpre c hc0
  · rcases List.mem_append.mp hc1 with hc2 | hc3
    · exact sanitizeChars_no_bad_char q.data c hc2
    · have hsuf : ∀ x ∈ ".xlsx".data, x ≠ ' ' ∧ x ≠ ':' ∧ x ≠ '\"' := by decide
      exact hsuf c hc3

/-- C3: when the data array is present and every item has the http
sub-structure, the displayed table has no warnings and both the table
and the export rows are exactly one row per item, the k-th row
(1-indexed) being the flattened (k, host, ip, port) of the k-th item
with no other fields. -/
theorem full_http_rows (r : ApiResponse) (q : String) (items : List ResultItem)
    (hdata : r.data = some items) (hall : ∀ it ∈ items, hasHttp it) :
    QuakeForCMD.display_results r q =
      .ok { summary := summaryLines r q, rows := projFrom 1 items, warnings := [] } ∧
    QuakeForCMD.export_rows r = .ok (projFrom 1 items) ∧
    (projFrom 1 items).length = items.length ∧
    ∀ k it, items[k]? = some it →
      (projFrom 1 items)[k]? = some (k + 1, hostOf it, it.ip, it.port) := by
  refine ⟨?_, ?_, projFrom_length items 1, ?_⟩
  · simp only [QuakeForCMD.display_results, hdata, displayFrom_of_all_http items 1 hall]
  · simp only [QuakeForCMD.export_rows, hdata, rowsFrom_of_all_http items 1 hall]
  · intro k it h
    have hk := projFrom_getElem items 1 k it h
    rwa [Nat.add_comm 1 k] at hk

/-- Witness for C3 at a concrete one-item response. -/
theorem full_http_rows_witness :
    QuakeForCMD.display_results respA "q" =
      .ok { summary := summaryLines respA "q", rows := projFrom 1 [itemA], warnings := [] } ∧
    QuakeForCMD.export_rows respA = .ok (projFrom 1 [itemA]) ∧
    (projFrom 1 [itemA]).length = [itemA].length ∧
    ∀ k it, [itemA][k]? = some it →
      (projFrom 1 [itemA])[k]? = some (k + 1, hostOf it, it.ip, it.port) :=
  full_http_rows respA "q" [itemA] rfl (by decide)

/-- The guarded display loop keeps exactly the items having the `http`
sub-structure as rows. -/
theorem displayFrom_rows_length : ∀ (items : List ResultItem) (i : Nat),
    (displayFrom i items).1.length = (items.filter hasHttp).length := by
  intro items
  induction items with
  | nil => intro i; rfl
  | cons it rest ih =>
    intro i
    cases hh : it.service.http with
    | none =>
      have hb : hasHttp it = false := by rw [hasHttp, hh]; rfl
      simp only [displayFrom, hh, List.filter_cons, hb, ih (i + 1)]
      rfl
    | some v =>
      have hb : hasHttp it = true := by rw [hasHttp, hh]; rfl
      simp only [displayFrom, hh, List.filter_cons, hb, List.length_cons, ih (i + 1)]
      simp

/-- The guarded display loop emits exactly one warning per item lacking
the `http` sub-structure. -/
theorem displayFrom_warnings_length : ∀ (items : List ResultItem) (i : Nat),
    (displayFrom i items).2.length = (items.filter (fun it => !hasHttp it)).length := by
  intro items
  induction items with
  | nil => intro i; rfl
  | cons it rest ih =>
    intro i
    cases hh : it.service.http with
    | none =>
      have hb : hasHttp it = false := by rw [hasHttp, hh]; rfl
      simp only [displayFrom, hh, List.filter_cons, hb, Bool.not_false, List.length_cons,
        ih (i + 1)]
      simp
    | some v =>
      have hb : hasHttp it = true := by rw [hasHttp, hh]; rfl
      simp only [displayFrom, hh, List.filter_cons, hb, Bool.not_true, ih (i + 1)]
      rfl

/-- The warnings emitted by the guarded display loop are exactly the
positions (counted from `i`) of the items lacking the `http`
sub-structure, in order. -/
theorem displayFrom_warnings_positions : ∀ (items : List ResultItem) (i : Nat),
    (displayFrom i items).2 = warnFrom i items := by
  intro items
  induction items with
  | nil => intro i; rfl
  | cons it rest ih =>
    intro i
    cases hh : it.service.http with
    | none =>
      have hb : hasHttp it = false := by rw [hasHttp, hh]; rfl
      simp only [displayFrom, hh, warnFrom, hb, if_neg (by decide : ¬ (false = true)),
        ih (i + 1)]
    | some v =>
      have hb : hasHttp it = true := by rw [hasHttp, hh]; rfl
      simp only [displayFrom, hh, warnFrom, hb, ih (i + 1)]
      simp

/-- The unguarded row computation fails with `KeyError` as soon as some
item lacks the `http` sub-structure. -/
theorem rowsFrom_error_of_missing : ∀ (items : List ResultItem) (i : Nat),
    (∃ it ∈ items, ¬ hasHttp it) → rowsFrom i items = .error (.keyError "http") := by
  intro items
  induction items with
  | nil => intro i h; simp at h
  | cons it rest ih =>
    intro i h
    cases hh : it.service.http with
    | none => simp only [rowsFrom, hh]
    | some v =>
      have hrest : ∃ x ∈ rest, ¬ hasHttp x := by
        rcases h with ⟨x, hx, hnx⟩
        rcases List.mem_cons.mp hx with hxit | hx2
        · subst hxit; rw [hasHttp, hh] at hnx; simp at hnx
        · exact ⟨x, hx2, hnx⟩
      simp only [rowsFrom, hh, ih (i + 1) hrest, Except.map]

/-- C1 counterexample: for the mixed response `respAB` (second item has
no `http` sub-structure), `display_results` skips the item with one
warning, but `export_to_excel` fails with `KeyError` instead of skipping
it — the export does fail because of one such item. -/
theorem export_missing_http_fails :
    (QuakeForCMD.display_results respAB "q").map DisplayOutput.rows =
      .ok [(1, "a.com", "1.2.3.4", 80)] ∧
    (QuakeForCMD.display_results respAB "q").map DisplayOutput.warnings = .ok [2] ∧
    (QuakeForCMD.export_to_excel true fs0 respAB "q").2 =
      .error (PyExc.keyError "http") :=
  ⟨rfl, rfl, rfl⟩

/-- C1 amended: when the data array is present, the display skips each
item lacking the `http` sub-structure, emitting exactly one warning
naming its position, keeps one row per item that has it, and never
fails; the export, however, does not skip: if any item lacks the
sub-structure the whole export fails with `KeyError` and writes no
file. -/
theorem display_skips_export_raises (r : ApiResponse) (q : String)
    (items : List ResultItem) (writeOk : Bool) (fs : FS)
    (hdata : r.data = some items) :
    (∃ out, QuakeForCMD.display_results r q = .ok out ∧
      out.rows.length = (items.filter hasHttp).length ∧
      out.warnings = warnFrom 1 items ∧
      out.warnings.length = (items.filter (fun it => !hasHttp it)).length) ∧
    ((∃ it ∈ items, ¬ hasHttp it) →
      (QuakeForCMD.export_to_excel writeOk fs r q).2 = .error (.keyError "http") ∧
      (QuakeForCMD.export_to_excel writeOk fs r q).1 = fs) := by
  constructor
  · refine ⟨{ summary := summaryLines r q,
              rows := (displayFrom 1 items).1,
              warnings := (displayFrom 1 items).2 }, ?_, ?_, ?_, ?_⟩
    · simp only [QuakeForCMD.display_results, hdata]
    · exact displayFrom_rows_length items 1
    · exact displayFrom_warnings_positions items 1
    · exact displayFrom_warnings_length items 1
  · intro hmiss
    have he : QuakeForCMD.export_rows r = .error (.keyError "http") := by
      simp only [QuakeForCMD.export_rows, hdata, rowsFrom_error_of_missing items 1 hmiss]
    constructor <;> simp only [QuakeForCMD.export_to_excel, he]

/-- Witness for the amended C1 at the concrete mixed response. -/
theorem display_skips_export_raises_witness :
    (∃ out, QuakeForCMD.display_results respAB "q2" = .ok out ∧
      out.rows.length = ([itemA, itemB].filter hasHttp).length ∧
      out.warnings = warnFrom 1 [itemA, itemB] ∧
      out.warnings.length = ([itemA, itemB].filter (fun it => !hasHttp it)).length) ∧
    ((∃ it ∈ [itemA, itemB], ¬ hasHttp it) →
      (QuakeForCMD.export_to_excel true fs0 respAB "q2").2 = .error (.keyError "http") ∧
      (QuakeForCMD.export_to_excel true fs0 respAB "q2").1 = fs0) :=
  display_skips_export_raises respAB "q2" [itemA, itemB] true fs0 rfl

/-- C2 counterexample: with an empty data array and a writable
directory, `export_to_excel` succeeds and writes a sheet with zero data
rows — it does not fail with any error, so the claim that the empty-data
case fails with `ExportError` is false. -/
theorem export_empty_data_no_error :
    (QuakeForCMD.export_to_excel true fs0 respEmpty "q3").2 = .ok () ∧
    (QuakeForCMD.export_to_excel true fs0 respEmpty "q3").1 (file_name "q3") = some [] := by
  constructor
  · rfl
  · show (if file_name "q3" = file_name "q3" then some ([] : List Row)
        else fs0 (file_name "q3")) = some []
    rw [if_pos rfl]

/-- C2 amended: there is no `ExportError` type in the code.  With an
empty data array the export deterministically succeeds, writing a sheet
with zero data rows; with an absent data array it fails with `KeyError`
before touching the file; when the file cannot be created it fails with
the `OSError` propagated from `DataFrame.to_excel` and the directory is
unchanged.  Each outcome is a deterministic function of the input. -/
theorem export_empty_absent_or_unwritable (writeOk : Bool) (fs : FS)
    (r : ApiResponse) (q : String) :
    (r.data = some [] → writeOk = true →
      (QuakeForCMD.export_to_excel writeOk fs r q).2 = .ok () ∧
      (QuakeForCMD.export_to_excel writeOk fs r q).1 (file_name q) = some []) ∧
    (r.data = none →
      (QuakeForCMD.export_to_excel writeOk fs r q).2 = .error (.keyError "data") ∧
      (QuakeForCMD.export_to_excel writeOk fs r q).1 = fs) ∧
    (writeOk = false → ∀ rows, QuakeForCMD.export_rows r = .ok rows →
      (QuakeForCMD.export_to_excel writeOk fs r q).2 = .error (.osError "cannot create file") ∧
      (QuakeForCMD.export_to_excel writeOk fs r q).1 = fs) := by
  refine ⟨?_, ?_, ?_⟩
  · intro hdata hw
    subst hw
    have he : QuakeForCMD.export_rows r = .ok [] := by
      simp only [QuakeForCMD.export_rows, hdata, rowsFrom]
    constructor
    · simp [QuakeForCMD.export_to_excel, he]
    · simp [QuakeForCMD.export_to_excel, he]
  · intro hdata
    have he : QuakeForCMD.export_rows r = .error (.keyError "data") := by
      simp only [QuakeForCMD.export_rows, hdata]
    constructor
    · simp [QuakeForCMD.export_to_excel, he]
    · simp [QuakeForCMD.export_to_excel, he]
  · intro hw rows he
    subst hw
    constructor
    · simp [QuakeForCMD.export_to_excel, he]
    · simp [QuakeForCMD.export_to_excel, he]

/-- Witness for the amended C2 at the empty-data and absent-data
responses. -/
theorem export_empty_absent_or_unwritable_witness :
    ((QuakeForCMD.export_to_excel true fs0 respEmpty "q4").2 = .ok () ∧
      (QuakeForCMD.export_to_excel true fs0 respEmpty "q4").1 (file_name "q4") = some []) ∧
    ((QuakeForCMD.export_to_excel true fs0 respNoData "q4").2 = .error (.keyError "data") ∧
      (QuakeForCMD.export_to_excel true fs0 respNoData "q4").1 = fs0) :=
  ⟨(export_empty_absent_or_unwritable true fs0 respEmpty "q4").1 rfl rfl,
   (export_empty_absent_or_unwritable true fs0 respNoData "q4").2.1 rfl⟩

/-- C6 counterexample: a final 304 response (non-2xx) with a decodable
body makes `perform_search` return the decoded value without any error:
`raise_for_status` raises only for 4xx/5xx, so a non-2xx status does not
always yield a transport error. -/
theorem perform_search_304_no_error :
    (perform_search "k" decodeA (NetOutcome.response 304 "body") "q" 1 1).result =
      .ok respA ∧
    ¬ (200 ≤ 304 ∧ 304 ≤ 299) := by
  constructor
  · rfl
  · decide

/-- C6 amended: `perform_search` fails with `requests.RequestException`
(TransportError) when the network call cannot complete or the server
returns a 4xx/5xx status (1xx/3xx final statuses are not raised on), and
with `json.JSONDecodeError` (DecodeError) when the body of a non-raising
response is not valid JSON; each error carries the original information
unmodified, exactly one request is issued, and there is no retry. -/
theorem perform_search_error_paths (api_key : String)
    (decode : String → Option ApiResponse) (net : NetOutcome) (query : String)
    (result_count start_page : Nat) :
    (∀ msg, net = .transportFail msg →
      (perform_search api_key decode net query result_count start_page).result =
        .error (.requestException msg)) ∧
    (∀ status body, net = .response status body → 400 ≤ status → status < 600 →
      (perform_search api_key decode net query result_count start_page).result =
        .error (.requestException (httpErrorMsg status))) ∧
    (∀ status body, net = .response status body → ¬ (400 ≤ status ∧ status < 600) →
      decode body = none →
      (perform_search api_key decode net query result_count start_page).result =
        .error (.jsonDecodeError body)) ∧
    (perform_search api_key decode net query result_count start_page).requests.length = 1 := by
  refine ⟨?_, ?_, ?_, ?_⟩
  · intro msg h
    subst h
    rfl
  · intro status body h h4 h6
    subst h
    simp only [perform_search]
    rw [if_pos ⟨h4, h6⟩]
  · intro status body h hn hdec
    subst h
    simp only [perform_search]
    rw [if_neg hn, hdec]
  · cases net with
    | transportFail msg => rfl
    | response status body =>
      simp only [perform_search]
      split
      · rfl
      · cases decode body <;> rfl

/-- Witness for the amended C6 on its three error paths. -/
theorem perform_search_error_paths_witness :
    (perform_search "k" decodeA (NetOutcome.transportFail "refused") "q" 1 1).result =
      .error (.requestException "refused") ∧
    (perform_search "k" decodeA (NetOutcome.response 500 "b") "q" 1 1).result =
      .error (.requestException (httpErrorMsg 500)) ∧
    (perform_search "k" (fun _ => none) (NetOutcome.response 200 "nojson") "q" 1 1).result =
      .error (.jsonDecodeError "nojson") :=
  ⟨(perform_search_error_paths "k" decodeA (NetOutcome.transportFail "refused")
      "q" 1 1).1 "refused" rfl,
   (perform_search_error_paths "k" decodeA (NetOutcome.response 500 "b")
      "q" 1 1).2.1 500 "b" rfl (by decide) (by decide),
   (perform_search_error_paths "k" (fun _ => none) (NetOutcome.response 200 "nojson")
      "q" 1 1).2.2.1 200 "nojson" rfl (by decide) rfl⟩

/-- C7: when the network call fails with a transport error, the run of
`main` propagates the exception after printing the error message: no
table is printed, no file is written, and display/export are never
reached. -/
theorem run_main_transport_failure (api_key : String)
    (decode : String → Option ApiResponse) (query : String) (size page : Nat)
    (writeOk : Bool) (fs : FS) (msg : String) :
    run_main api_key decode (NetOutcome.transportFail msg) query size page writeOk fs =
      { console := ["API请求过程中发生错误: " ++ msg], table := none, fs := fs,
        exportedName := none, result := .error (.requestException msg) } := rfl

/-- C8: export is idempotent — a second `export_to_excel` with the same
response and query term targets the same derived file name, leaves the
file system exactly as the first call left it, and returns the same
outcome. -/
theorem export_to_excel_idempotent (writeOk : Bool) (fs : FS) (r : ApiResponse)
    (q : String) :
    (QuakeForCMD.export_to_excel writeOk
        (QuakeForCMD.export_to_excel writeOk fs r q).1 r q).1 =
      (QuakeForCMD.export_to_excel writeOk fs r q).1 ∧
    (QuakeForCMD.export_to_excel writeOk
        (QuakeForCMD.export_to_excel writeOk fs r q).1 r q).2 =
      (QuakeForCMD.export_to_excel writeOk fs r q).2 := by
  cases he : QuakeForCMD.export_rows r with
  | error e => simp [QuakeForCMD.export_to_excel, he]
  | ok rows =>
    cases writeOk with
    | false => simp [QuakeForCMD.export_to_excel, he]
    | true =>
      constructor
      · funext n
        simp only [QuakeForCMD.export_to_excel, he]
        by_cases hn : n = file_name q <;> simp [hn]
      · simp [QuakeForCMD.export_to_excel, he]

/-- C9: on any response whose items all carry the `http` sub-structure,
the `display_results` of `quake_query.py` and of `360QuakeForCMD.py`
produce identical output: the same pagination summary lines and the same
table rows (and no warnings from either). -/
theorem display_variants_agree (r : ApiResponse) (q : String)
    (items : List ResultItem) (hdata : r.data = some items)
    (hall : ∀ it ∈ items, hasHttp it) :
    QuakeQueryPy.display_results r q = QuakeForCMD.display_results r q ∧
    QuakeQueryPy.display_results r q =
      .ok { summary := summaryLines r q, rows := projFrom 1 items, warnings := [] } := by
  have h2 : QuakeQueryPy.display_results r q =
      .ok { summary := summaryLines r q, rows := projFrom 1 items, warnings := [] } := by
    simp only [QuakeQueryPy.display_results, hdata, rowsFrom_of_all_http items 1 hall,
      Except.map]
  have h1 : QuakeForCMD.display_results r q =
      .ok { summary := summaryLines r q, rows := projFrom 1 items, warnings := [] } := by
    simp only [QuakeForCMD.display_results, hdata, displayFrom_of_all_http items 1 hall]
  exact ⟨h2.trans h1.symm, h2⟩

/-- Witness for C9 at a concrete all-http response. -/
theorem display_variants_agree_witness :
    QuakeQueryPy.display_results respA "qq" = QuakeForCMD.display_results respA "qq" ∧
    QuakeQueryPy.display_results respA "qq" =
      .ok { summary := summaryLines respA "qq", rows := projFrom 1 [itemA],
            warnings := [] } :=
  display_variants_agree respA "qq" [itemA] rfl (by decide)

/-- C10: the api_key flows only into the request header.  The console
output and the result of `perform_search` (including its printed error
path), and the entire observable run of `main` (console, table, file
system, exported name, outcome), are unchanged when two runs differ only
in the api_key. -/
theorem api_key_never_echoed (k1 k2 : String)
    (decode : String → Option ApiResponse) (net : NetOutcome) (query : String)
    (size page : Nat) (writeOk : Bool) (fs : FS) :
    (perform_search k1 decode net query size page).console =
      (perform_search k2 decode net query size page).console ∧
    (perform_search k1 decode net query size page).result =
      (perform_search k2 decode net query size page).result ∧
    run_main k1 decode net query size page writeOk fs =
      run_main k2 decode net query size page writeOk fs := by
  have hc : (perform_search k1 decode net query size page).console =
      (perform_search k2 decode net query size page).console := by
    cases net with
    | transportFail msg => rfl
    | response status body =>
      simp only [perform_search]
      split
      · rfl
      · cases decode body <;> rfl
  have hr : (perform_search k1 decode net query size page).result =
      (perform_search k2 decode net query size page).result := by
    cases net with
    | transportFail msg => rfl
    | response status body =>
      simp only [perform_search]
      split
      · rfl
      · cases decode body <;> rfl
  refine ⟨hc, hr, ?_⟩
  simp only [run_main, hr, hc]
